import Mathlib

/-!
Verification of the member-event intake and dispatch code of droas-bot
(`src/handlers/member_events.py`), a shallow embedding in Lean 4.

Modelling conventions:
* Python dictionaries carrying the event are embedded as structures with
  `Option` fields (`none` = key absent).
* Exceptions are values of `PyExn`; a fallible call returns `Except PyExn α`.
  `PyExn.msg` is the Python `str(e)`; `PyExn.retryAfter` models the optional
  `retry_after` attribute read by `getattr(e, 'retry_after', 5.0)`.
* The collaborators (config service, Discord client, channel objects) are an
  oracle record `World`; theorems quantify over every behaviour of the world.
* Observable actions (config lookups, channel fetches, message sends, sleeps,
  dedup-record writes) are logged in an explicit effect trace `List Effect`.
* Durations are rationals (`Rat`), times are `Nat` instants.
-/

/-- ASCII lowering of one character, as `str.lower()` acts on the ASCII
error messages classified by the handler. -/
def lowerChar (c : Char) : Char :=
  if 'A' ≤ c ∧ c ≤ 'Z' then Char.ofNat (c.toNat + 32) else c

/-- Lower-case a string (ASCII letters only, which is all the handler
compares). Models Python `str.lower()` on the error messages involved. -/
def strToLower (s : String) : String :=
  String.mk (s.toList.map lowerChar)

/-- `beginsWith sub l` : the character list `sub` is a prefix of `l`. -/
def beginsWith : List Char → List Char → Bool
  | [], _ => true
  | _ :: _, [] => false
  | c :: cs, d :: ds => c == d && beginsWith cs ds

/-- `containsSub sub l` : `sub` occurs as a contiguous run inside `l`. -/
def containsSub (sub : List Char) : List Char → Bool
  | [] => sub.isEmpty
  | c :: cs => beginsWith sub (c :: cs) || containsSub sub cs

/-- Python `sub in s` on strings. -/
def strContains (s sub : String) : Bool :=
  containsSub sub.toList s.toList

/-- A Python exception as observed by the handler: its `str()` rendering and
the optional `retry_after` attribute. -/
structure PyExn where
  msg : String
  retryAfter : Option Rat
deriving DecidableEq, Repr

/-- The rate-limit test of `_send_welcome_message` (line 131):
`"rate limit" in str(e).lower() or "429" in str(e)`. -/
def isRateLimitErr (e : PyExn) : Bool :=
  strContains (strToLower e.msg) "rate limit" || strContains e.msg "429"

/-- The permission test of `_send_welcome_message` (line 138):
`"permission" in str(e).lower() or "403" in str(e)`. -/
def isPermissionErr (e : PyExn) : Bool :=
  strContains (strToLower e.msg) "permission" || strContains e.msg "403"

/-- The `user` sub-dictionary of a `GUILD_MEMBER_ADD` event: the two keys the
handler reads, `none` meaning the key is absent. -/
structure UserData where
  id : Option String
  username : Option String
deriving DecidableEq, Repr

/-- A raw inbound event dictionary: the keys the handler reads, `none`
meaning the key is absent. -/
structure EventData where
  guild_id : Option String
  user : Option UserData
deriving DecidableEq, Repr

/-- `MemberEventHandler._validate_event_data` (lines 66-90): membership
checks for `guild_id` and `user` at top level and `id` and `username`
inside `user`. Values are only tested for presence, never inspected. -/
def validate_event_data (event_data : EventData) : Bool :=
  event_data.guild_id.isSome &&
  match event_data.user with
  | none => false
  | some u => u.id.isSome && u.username.isSome

/-- `MemberEventHandler._is_duplicate_event` (lines 92-104): the idempotency
hook is an explicit TODO stub, `return False` unconditionally. -/
def is_duplicate_event (_event_data : EventData) : Bool :=
  false

/-- A Discord channel object, abstracted to a handle. -/
abbrev Channel := Nat

/-- One observable action of the handler. `dedupRecord` is never emitted by
the code as shipped (the dedup hook is a stub); it is emitted by the
spec-modelled pipeline `handle_with_dedup` below. -/
inductive Effect where
  | configLookup (guildId : String)
  | fetchChannel (channelId : Int)
  | send (channel : Channel) (content : String)
  | sleep (seconds : Rat)
  | dedupRecord (tenant subject : String)
deriving DecidableEq, Repr

/-- The collaborators of the handler, as oracles: the configuration service
(`get_welcome_channel`), the Discord client (`fetch_channel`) and the send
method of a fetched channel object. Each may raise. -/
structure World where
  getWelcomeChannel : String → Except PyExn (Option String)
  fetchChannel : Int → Except PyExn Channel
  send : Channel → String → Except PyExn Unit

/-- Digits of a decimal literal, or `none` when empty or non-numeric. -/
def digitsToNat : List Char → Option Nat
  | [] => none
  | l =>
    if l.all Char.isDigit then
      some (l.foldl (fun n c => n * 10 + (c.toNat - 48)) 0)
    else none

/-- ASCII whitespace, the common case of what `int()` strips. -/
def isSpaceChar (c : Char) : Bool :=
  c == ' ' || c == '\t' || c == '\n' || c == '\r'

/-- Drop leading whitespace characters. -/
def dropLeadingSpace : List Char → List Char
  | [] => []
  | c :: cs => if isSpaceChar c then dropLeadingSpace cs else c :: cs

/-- Strip whitespace from both ends. -/
def stripSpace (l : List Char) : List Char :=
  ((dropLeadingSpace (dropLeadingSpace l).reverse)).reverse

/-- Python `int(s)` on a string: optional surrounding whitespace, optional
sign, decimal digits; anything else raises `ValueError`. -/
def pyInt (s : String) : Except PyExn Int :=
  let signed : Option Int :=
    match stripSpace s.toList with
    | '+' :: rest => (digitsToNat rest).map (fun n => (n : Int))
    | '-' :: rest => (digitsToNat rest).map (fun n => -(n : Int))
    | l => (digitsToNat l).map (fun n => (n : Int))
  match signed with
  | some n => Except.ok n
  | none =>
    Except.error { msg := "ValueError: invalid literal for int() with base 10"
                   retryAfter := none }

/-- The welcome text built at line 123 for user id `uid`. -/
def welcomeMessage (uid : String) : String :=
  "歡迎 <@" ++ uid ++ "> 加入伺服器！🎉 希望你在這裡玩得愉快！"

/-- `MemberEventHandler._get_channel` (lines 145-162). `client = false`
models `self._discord_client is None`, in which case a `RuntimeError` is
raised before the inner `try`. Inside the `try`, both a `ValueError` from
`int(channel_id)` and any exception from `fetch_channel` are caught and
turned into `None`. -/
def get_channel (w : World) (client : Bool) (channel_id : String) :
    Except PyExn (Option Channel) × List Effect :=
  if client = false then
    (Except.error { msg := "Discord client not initialized", retryAfter := none }, [])
  else
    match pyInt channel_id with
    | Except.error _ => (Except.ok none, [])
    | Except.ok n =>
      match w.fetchChannel n with
      | Except.error _ => (Except.ok none, [Effect.fetchChannel n])
      | Except.ok ch => (Except.ok (some ch), [Effect.fetchChannel n])

/-- The `except` clause of `_send_welcome_message` (lines 130-143): a
rate-limit error sleeps `retry_after` (default `5.0`) and returns without
retrying; a permission error returns; anything else is re-raised. -/
def sendExceptClause :
    Except PyExn Unit × List Effect → Except PyExn Unit × List Effect
  | (Except.ok u, tr) => (Except.ok u, tr)
  | (Except.error e, tr) =>
    if isRateLimitErr e then
      (Except.ok (), tr ++ [Effect.sleep (e.retryAfter.getD 5)])
    else if isPermissionErr e then
      (Except.ok (), tr)
    else
      (Except.error e, tr)

/-- The `try` body of `_send_welcome_message` (lines 114-128): fetch the
channel, return silently when it is `None`, otherwise build the welcome
text and send it. -/
def sendTryBody (w : World) (client : Bool) (channel_id : String)
    (user : UserData) : Except PyExn Unit × List Effect :=
  match get_channel w client channel_id with
  | (Except.error e, tr) => (Except.error e, tr)
  | (Except.ok none, tr) => (Except.ok (), tr)
  | (Except.ok (some channel), tr) =>
    match user.id, user.username with
    | some user_id, some _username =>
      let message_content := welcomeMessage user_id
      match w.send channel message_content with
      | Except.error e => (Except.error e, tr ++ [Effect.send channel message_content])
      | Except.ok _ => (Except.ok (), tr ++ [Effect.send channel message_content])
    | _, _ => (Except.error { msg := "KeyError", retryAfter := none }, tr)

/-- `MemberEventHandler._send_welcome_message` (lines 106-143). -/
def send_welcome_message (w : World) (client : Bool) (channel_id : String)
    (user : UserData) : Except PyExn Unit × List Effect :=
  sendExceptClause (sendTryBody w client channel_id user)

/-- Result classification of `handle_guild_member_add`. The Python function
returns `None` on every path; the constructors tag its syntactically distinct
exit points (the log line each one emits): `invalid` (line 40), `duplicate`
(line 48), `noTarget` (line 55), `sent` (line 61), `failed` (line 64, the
boundary `except`). -/
inductive Outcome where
  | invalid
  | duplicate
  | noTarget
  | sent
  | failed (msg : String)
deriving DecidableEq, Repr

/-- Resolve the welcome channel and dispatch (lines 52-61): the part of the
pipeline after validation and the duplicate check, shared below with the
spec-modelled deduplicating pipeline. -/
def resolve_and_dispatch (w : World) (client : Bool) (guild_id : String)
    (user : UserData) : Except PyExn Outcome × List Effect :=
  match w.getWelcomeChannel guild_id with
  | Except.error e => (Except.error e, [Effect.configLookup guild_id])
  | Except.ok none => (Except.ok Outcome.noTarget, [Effect.configLookup guild_id])
  | Except.ok (some welcome_channel_id) =>
    match send_welcome_message w client welcome_channel_id user with
    | (Except.error e, tr) => (Except.error e, Effect.configLookup guild_id :: tr)
    | (Except.ok _, tr) => (Except.ok Outcome.sent, Effect.configLookup guild_id :: tr)

/-- The `try` body of `handle_guild_member_add` (lines 37-61): validate,
subscript, duplicate-check, then resolve and dispatch. -/
def handleTryBody (w : World) (client : Bool) (event_data : EventData) :
    Except PyExn Outcome × List Effect :=
  if validate_event_data event_data = false then
    (Except.ok Outcome.invalid, [])
  else
    match event_data.guild_id, event_data.user with
    | some guild_id, some user =>
      if is_duplicate_event event_data then
        (Except.ok Outcome.duplicate, [])
      else
        resolve_and_dispatch w client guild_id user
    | _, _ => (Except.error { msg := "KeyError", retryAfter := none }, [])

/-- The boundary `except Exception` of `handle_guild_member_add`
(lines 63-64): every exception from the body is caught and logged; the
handler then returns normally. -/
def handleExceptBoundary :
    Except PyExn Outcome × List Effect → Except PyExn Outcome × List Effect
  | (Except.ok o, tr) => (Except.ok o, tr)
  | (Except.error e, tr) => (Except.ok (Outcome.failed e.msg), tr)

/-- `MemberEventHandler.handle_guild_member_add` (lines 30-64). -/
def handle_guild_member_add (w : World) (client : Bool)
    (event_data : EventData) : Except PyExn Outcome × List Effect :=
  handleExceptBoundary (handleTryBody w client event_data)

/-- Number of outbound send attempts recorded in a trace. -/
def countSends (tr : List Effect) : Nat :=
  tr.countP (fun e => match e with | Effect.send _ _ => true | _ => false)

/-- Number of dedup-record writes recorded in a trace. -/
def countDedupRecords (tr : List Effect) : Nat :=
  tr.countP (fun e => match e with | Effect.dedupRecord _ _ => true | _ => false)

/-- Number of configuration lookups recorded in a trace. -/
def countConfigLookups (tr : List Effect) : Nat :=
  tr.countP (fun e => match e with | Effect.configLookup _ => true | _ => false)

/-! ## Spec-modelled components

The repository wires its deduplication cache and rate-limit tracker in Rust
modules (`src/discord/event_handler.rs`: `check_duplication`,
`record_processed_event`, `deduplication_cache`; `src/discord/rate_limit.rs`:
`RateLimiter`, `wait_if_rate_limited`), which `verify_nfr_001.py` checks for
but which are not part of the Python sources. The Python handler only carries
the stub hook `_is_duplicate_event`. The two components are therefore
modelled here from the specification. -/

/-- A dedup key: (tenant identifier, subject identifier). -/
abbrev DedupKey := String × String

/-- The dedup cache: keys with their first-seen instants, newest first. -/
abbrev DedupCache := List (DedupKey × Nat)

/-- Modelled from the spec: the deduplication cache `check_and_record(key)`
of section 4.2, whose implementation (`check_duplication` /
`record_processed_event` / `deduplication_cache` in
`src/discord/event_handler.rs`) is missing from the sources. Entries older
than the retention window are evicted lazily; a hit returns `false`; a miss
records the key, keeping at most `cap` newest-first records
(insertion-order eviction). -/
def check_and_record (retention cap : Nat) (key : DedupKey) (now : Nat)
    (cache : DedupCache) : Bool × DedupCache :=
  let live := cache.filter (fun e => now < e.2 + retention)
  if live.any (fun e => e.1 == key) then
    (false, live)
  else
    (true, ((key, now) :: live).take cap)

/-- Modelled from the spec: the pipeline of section 4.6 with the TODO stub
`_is_duplicate_event` replaced by an atomic `check_and_record` on the
(tenant id, subject id) key, as the stub's own comment -- implement with the
dedup/idempotency component -- directs. All other stages are the embedded
Python code. -/
def handle_with_dedup (retention cap : Nat) (w : World) (client : Bool)
    (now : Nat) (event_data : EventData) (cache : DedupCache) :
    (Except PyExn Outcome × List Effect) × DedupCache :=
  if validate_event_data event_data = false then
    ((Except.ok Outcome.invalid, []), cache)
  else
    match event_data.guild_id, event_data.user with
    | some guild_id, some user =>
      match user.id with
      | some uid =>
        match check_and_record retention cap (guild_id, uid) now cache with
        | (false, cache2) => ((Except.ok Outcome.duplicate, []), cache2)
        | (true, cache2) =>
          let (r, tr) := resolve_and_dispatch w client guild_id user
          ((handleExceptBoundary (r, Effect.dedupRecord guild_id uid :: tr)), cache2)
      | none => ((Except.ok Outcome.invalid, []), cache)
    | _, _ => ((Except.ok Outcome.invalid, []), cache)

/-- Process a sequence of timed events through the deduplicating pipeline,
threading the cache. -/
def process_seq (retention cap : Nat) (w : World) (client : Bool) :
    List (Nat × EventData) → DedupCache →
    List (Except PyExn Outcome × List Effect)
  | [], _ => []
  | (t, ev) :: rest, cache =>
    let (r, cache2) := handle_with_dedup retention cap w client t ev cache
    r :: process_seq retention cap w client rest cache2

/-- Modelled from the spec: a rate-limit bucket of section 4.3
(`RateLimiter` in `src/discord/rate_limit.rs`, missing from the sources):
remaining call budget, absolute reset instant, configured ceiling. -/
structure RateLimitBucket where
  remaining : Nat
  resetAt : Nat
  ceiling : Nat
deriving DecidableEq, Repr

/-- Modelled from the spec: one dispatch consultation of the tracker at
instant `now`. Returns `none` (proceed immediately) or `some t` (wait until
instant `t` before attempting). The reset check is lazy: once the reset
instant has elapsed the budget reverts to the ceiling. -/
def acquire (now : Nat) (b : RateLimitBucket) : Option Nat × RateLimitBucket :=
  if b.resetAt ≤ now then
    (none, { b with remaining := b.ceiling - 1 })
  else if 0 < b.remaining then
    (none, { b with remaining := b.remaining - 1 })
  else
    (some b.resetAt, b)

/-- `k` successive dispatch consultations of the tracker at instant `now`,
collecting each call's wait instruction. -/
def acquireSeq (now : Nat) (b : RateLimitBucket) : Nat → List (Option Nat) × RateLimitBucket
  | 0 => ([], b)
  | k + 1 =>
    let (r, b2) := acquire now b
    let (rs, b3) := acquireSeq now b2 k
    (r :: rs, b3)

/-! ## Concrete fixtures for counterexamples and witnesses -/

/-- A well-formed event: guild `G1`, user `U1` named `alice`. -/
def evOk : EventData :=
  { guild_id := some "G1", user := some { id := some "U1", username := some "alice" } }

/-- An event whose `user` sub-dictionary carries empty-string values for
`id` and `username` (every key present). -/
def evEmptyUser : EventData :=
  { guild_id := some "G1", user := some { id := some "", username := some "" } }

/-- A malformed event: the `user` key is absent. -/
def evNoUser : EventData :=
  { guild_id := some "G1", user := none }

/-- A world in which everything succeeds: channel `555` is configured,
fetching returns channel object `7`, sending succeeds. -/
def wOk : World :=
  { getWelcomeChannel := fun _ => Except.ok (some "555")
    fetchChannel := fun _ => Except.ok 7
    send := fun _ _ => Except.ok () }

/-- A world in which no welcome channel is configured for any guild. -/
def wNoTarget : World :=
  { getWelcomeChannel := fun _ => Except.ok none
    fetchChannel := fun _ => Except.ok 7
    send := fun _ _ => Except.ok () }

/-- A world in which sending always fails with an explicit rate-limit error
carrying `retry_after = 2`. -/
def wRateLimited : World :=
  { getWelcomeChannel := fun _ => Except.ok (some "555")
    fetchChannel := fun _ => Except.ok 7
    send := fun _ _ => Except.error { msg := "429 Too Many Requests: rate limit", retryAfter := some 2 } }

/-- A world in which sending always fails with a transient network error. -/
def wTransient : World :=
  { getWelcomeChannel := fun _ => Except.ok (some "555")
    fetchChannel := fun _ => Except.ok 7
    send := fun _ _ => Except.error { msg := "Connection reset by peer", retryAfter := none } }

/-- A world whose channel fetch always raises. -/
def wFetchFails : World :=
  { getWelcomeChannel := fun _ => Except.ok (some "555")
    fetchChannel := fun _ => Except.error { msg := "NotFound: Unknown Channel", retryAfter := none }
    send := fun _ _ => Except.ok () }

/-! ## Claim theorems -/

/-- C2. For every raw inbound event and every behaviour of the collaborators,
`handle_guild_member_add` terminates with one of the typed outcomes
(`invalid`, `duplicate`, `noTarget`, `sent`, `failed`) and never lets an
exception escape to its caller: the result is always `Except.ok`. -/
theorem pipeline_total_no_exception (w : World) (client : Bool)
    (ev : EventData) :
    ∃ o : Outcome, (handle_guild_member_add w client ev).1 = Except.ok o := by
  rcases h : handleTryBody w client ev with ⟨r, tr⟩
  cases r with
  | ok o =>
    exact ⟨o, by simp [handle_guild_member_add, h, handleExceptBoundary]⟩
  | error e =>
    exact ⟨Outcome.failed e.msg,
      by simp [handle_guild_member_add, h, handleExceptBoundary]⟩

/-- C5 counterexample. An event whose subject identifier and display name are
both the empty string (keys present, values empty) passes
`_validate_event_data`: the validator checks key presence only, so the
claimed rejection of empty-string values fails on the code. -/
theorem validate_accepts_empty_subject_fields :
    validate_event_data evEmptyUser = true ∧
    evEmptyUser.user = some { id := some "", username := some "" } :=
  ⟨rfl, rfl⟩

/-- C5 amended. Validation succeeds exactly when the tenant identifier key
and a subject object carrying identifier and display-name keys are all
present; the values themselves (empty strings included) are never
inspected. -/
theorem validate_event_data_presence_iff (ev : EventData) :
    validate_event_data ev = true ↔
      (∃ g, ev.guild_id = some g) ∧
      ∃ u, ev.user = some u ∧ (∃ i, u.id = some i) ∧ ∃ nm, u.username = some nm := by
  rcases ev with ⟨g?, u?⟩
  cases u? with
  | none => simp [validate_event_data]
  | some u =>
    rcases u with ⟨i?, n?⟩
    cases g? <;> cases i? <;> cases n? <;> simp [validate_event_data]

/-- C6. An event that fails validation stops the pipeline with outcome
`invalid` and an empty effect trace: no dedup record, no configuration
lookup, no channel fetch, no send, no sleep. -/
theorem invalid_event_no_effects (w : World) (client : Bool) (ev : EventData)
    (h : validate_event_data ev = false) :
    handle_guild_member_add w client ev = (Except.ok Outcome.invalid, []) := by
  simp [handle_guild_member_add, handleTryBody, h, handleExceptBoundary]

/-- Witness for C6 at the concrete malformed event `evNoUser`. -/
theorem invalid_event_no_effects_witness :
    validate_event_data evNoUser = false ∧
    handle_guild_member_add wOk true evNoUser = (Except.ok Outcome.invalid, []) :=
  ⟨rfl, invalid_event_no_effects wOk true evNoUser rfl⟩

/-- C9. For a valid event with a configured welcome channel but no injected
Discord client, the `RuntimeError` raised inside `_get_channel` is re-raised
by `_send_welcome_message` and caught by the boundary `except` of
`handle_guild_member_add`: the handler returns normally with outcome
`failed`, and the trace shows the configuration lookup only — no channel
fetch and no send was attempted. -/
theorem missing_client_error_caught_at_boundary (w : World) (ev : EventData)
    (g cid : String)
    (hv : validate_event_data ev = true) (hg : ev.guild_id = some g)
    (hc : w.getWelcomeChannel g = Except.ok (some cid)) :
    handle_guild_member_add w false ev =
      (Except.ok (Outcome.failed "Discord client not initialized"),
       [Effect.configLookup g]) := by
  rcases ev with ⟨g?, u?⟩
  simp only [EventData.guild_id] at hg
  subst hg
  cases u? with
  | none => simp [validate_event_data] at hv
  | some u =>
    rcases u with ⟨i?, n?⟩
    cases i? with
    | none => simp [validate_event_data] at hv
    | some uid =>
      cases n? with
      | none => simp [validate_event_data] at hv
      | some uname =>
        simp [handle_guild_member_add, handleTryBody, validate_event_data,
          is_duplicate_event, resolve_and_dispatch, hc, send_welcome_message,
          sendTryBody, get_channel, sendExceptClause, isRateLimitErr,
          isPermissionErr, handleExceptBoundary]
        rfl

/-- Witness for C9: concrete world `wOk`, event `evOk`, client absent. -/
theorem missing_client_error_caught_at_boundary_witness :
    handle_guild_member_add wOk false evOk =
      (Except.ok (Outcome.failed "Discord client not initialized"),
       [Effect.configLookup "G1"]) :=
  missing_client_error_caught_at_boundary wOk evOk "G1" "555" rfl rfl rfl

/-- C10. For every channel id string on which `int()` raises, and for every
world whose channel fetch raises, `_get_channel` returns `None` instead of
propagating, and `_send_welcome_message` then returns normally without
calling `send` on any channel. -/
theorem channel_fetch_failure_yields_none_and_no_send (w : World)
    (channel_id : String) (user : UserData)
    (h : (∃ e, pyInt channel_id = Except.error e) ∨
         (∃ n e, pyInt channel_id = Except.ok n ∧
            w.fetchChannel n = Except.error e)) :
    (get_channel w true channel_id).1 = Except.ok none ∧
    (send_welcome_message w true channel_id user).1 = Except.ok () ∧
    countSends (send_welcome_message w true channel_id user).2 = 0 := by
  rcases h with ⟨e, he⟩ | ⟨n, e, hn, he⟩
  · refine ⟨?_, ?_, ?_⟩ <;>
      simp [get_channel, send_welcome_message, sendTryBody, sendExceptClause,
        he, countSends]
  · refine ⟨?_, ?_, ?_⟩ <;>
      simp [get_channel, send_welcome_message, sendTryBody, sendExceptClause,
        hn, he, countSends]

/-- Witness for C10 at the non-numeric channel id string `abc`. -/
theorem channel_fetch_failure_yields_none_and_no_send_witness :
    (get_channel wOk true "abc").1 = Except.ok none ∧
    (send_welcome_message wOk true "abc"
        { id := some "U1", username := some "alice" }).1 = Except.ok () ∧
    countSends (send_welcome_message wOk true "abc"
        { id := some "U1", username := some "alice" }).2 = 0 :=
  channel_fetch_failure_yields_none_and_no_send wOk "abc"
    { id := some "U1", username := some "alice" }
    (Or.inl ⟨{ msg := "ValueError: invalid literal for int() with base 10"
               retryAfter := none }, rfl⟩)

/-- C3 counterexample. In the world `wRateLimited`, where sending raises an
explicit rate-limit error carrying `retry_after = 2`, the dispatcher makes
exactly one send attempt, sleeps the provided 2 seconds, and then returns —
the trace ends with the sleep and contains no second send, refuting the
claimed retry after the wait. -/
theorem rate_limit_wait_without_retry_cex :
    handle_guild_member_add wRateLimited true evOk =
      (Except.ok Outcome.sent,
       [Effect.configLookup "G1", Effect.fetchChannel 555,
        Effect.send 7 (welcomeMessage "U1"), Effect.sleep 2]) ∧
    countSends (handle_guild_member_add wRateLimited true evOk).2 = 1 :=
  ⟨rfl, rfl⟩

/-- C3 amended. When an outbound send fails with an explicit rate-limit
signal, the dispatcher sleeps the provided `retry_after` duration (5.0 when
the exception carries none) and then returns normally without retrying: the
trace holds exactly one send attempt followed by the sleep, and no maximum
attempt count exists. -/
theorem rate_limited_sleeps_retry_after_no_retry (w : World) (cid : String)
    (user : UserData) (uid uname : String) (n : Int) (ch : Channel) (e : PyExn)
    (hu : user.id = some uid) (hn : user.username = some uname)
    (hp : pyInt cid = Except.ok n) (hf : w.fetchChannel n = Except.ok ch)
    (hs : w.send ch (welcomeMessage uid) = Except.error e)
    (hrl : isRateLimitErr e = true) :
    send_welcome_message w true cid user =
      (Except.ok (),
       [Effect.fetchChannel n, Effect.send ch (welcomeMessage uid),
        Effect.sleep (e.retryAfter.getD 5)]) := by
  rcases user with ⟨i?, n?⟩
  simp only [UserData.id] at hu
  simp only [UserData.username] at hn
  subst hu
  subst hn
  simp [send_welcome_message, sendTryBody, get_channel, hp, hf, hs,
    sendExceptClause, hrl]

/-- Witness for the amended C3 in the concrete world `wRateLimited`. -/
theorem rate_limited_sleeps_retry_after_no_retry_witness :
    send_welcome_message wRateLimited true "555"
        { id := some "U1", username := some "alice" } =
      (Except.ok (),
       [Effect.fetchChannel 555, Effect.send 7 (welcomeMessage "U1"),
        Effect.sleep ((PyExn.retryAfter
          { msg := "429 Too Many Requests: rate limit"
            retryAfter := some 2 }).getD 5)]) :=
  rate_limited_sleeps_retry_after_no_retry wRateLimited "555"
    { id := some "U1", username := some "alice" } "U1" "alice" 555 7
    { msg := "429 Too Many Requests: rate limit", retryAfter := some 2 }
    rfl rfl rfl rfl rfl rfl

/-- C4 counterexample. In the world `wTransient`, where sending raises a
plain network error, the pipeline makes exactly one send attempt, performs
no sleep (no backoff, no jitter), and reports the raw error at the boundary
rather than a distinct retries-exhausted failure — refuting the claimed
exponential-backoff retry loop. -/
theorem transient_error_single_attempt_cex :
    handle_guild_member_add wTransient true evOk =
      (Except.ok (Outcome.failed "Connection reset by peer"),
       [Effect.configLookup "G1", Effect.fetchChannel 555,
        Effect.send 7 (welcomeMessage "U1")]) ∧
    countSends (handle_guild_member_add wTransient true evOk).2 = 1 :=
  ⟨rfl, rfl⟩

/-- C4 amended. On a transient (neither rate-limit nor permission) outbound
failure the exception is re-raised by `_send_welcome_message`, caught at the
boundary of `handle_guild_member_add`, and reported as outcome `failed` with
the underlying message: exactly one send attempt, no sleep, no backoff, and
no separate retries-exhausted classification. -/
theorem transient_error_raised_to_boundary (w : World) (ev : EventData)
    (g cid uid : String) (user : UserData) (n : Int) (ch : Channel) (e : PyExn)
    (hv : validate_event_data ev = true) (hg : ev.guild_id = some g)
    (hu : ev.user = some user) (hid : user.id = some uid)
    (hc : w.getWelcomeChannel g = Except.ok (some cid))
    (hp : pyInt cid = Except.ok n) (hf : w.fetchChannel n = Except.ok ch)
    (hs : w.send ch (welcomeMessage uid) = Except.error e)
    (hrl : isRateLimitErr e = false) (hperm : isPermissionErr e = false) :
    handle_guild_member_add w true ev =
      (Except.ok (Outcome.failed e.msg),
       [Effect.configLookup g, Effect.fetchChannel n,
        Effect.send ch (welcomeMessage uid)]) := by
  rcases ev with ⟨g?, u?⟩
  simp only [EventData.guild_id] at hg
  simp only [EventData.user] at hu
  subst hg
  subst hu
  rcases user with ⟨i?, n?⟩
  simp only [UserData.id] at hid
  subst hid
  cases n? with
  | none => simp [validate_event_data] at hv
  | some uname =>
    simp [handle_guild_member_add, handleTryBody, validate_event_data,
      is_duplicate_event, resolve_and_dispatch, hc, send_welcome_message,
      sendTryBody, get_channel, hp, hf, hs, sendExceptClause, hrl, hperm,
      handleExceptBoundary]

/-- Witness for the amended C4 in the concrete world `wTransient`. -/
theorem transient_error_raised_to_boundary_witness :
    handle_guild_member_add wTransient true evOk =
      (Except.ok (Outcome.failed
        (PyExn.msg { msg := "Connection reset by peer", retryAfter := none })),
       [Effect.configLookup "G1", Effect.fetchChannel 555,
        Effect.send 7 (welcomeMessage "U1")]) :=
  transient_error_raised_to_boundary wTransient evOk "G1" "555" "U1"
    { id := some "U1", username := some "alice" } 555 7
    { msg := "Connection reset by peer", retryAfter := none }
    rfl rfl rfl rfl rfl rfl rfl rfl rfl rfl

/-- The (tenant id, subject id) key material of an event: its subject
identifier, when present. -/
def subjectId (ev : EventData) : Option String :=
  ev.user.bind (fun u => u.id)

/-- With a configured target, `resolve_and_dispatch` either succeeds
(`sent`) or raises the dispatch exception. -/
theorem resolve_and_dispatch_ok_or_error (w : World) (client : Bool)
    (g cid : String) (u : UserData)
    (hc : w.getWelcomeChannel g = Except.ok (some cid)) :
    (resolve_and_dispatch w client g u).1 = Except.ok Outcome.sent ∨
    ∃ e, (resolve_and_dispatch w client g u).1 = Except.error e := by
  rcases hs : send_welcome_message w client cid u with ⟨r, tr⟩
  cases r with
  | ok _ => exact Or.inl (by simp [resolve_and_dispatch, hc, hs])
  | error e => exact Or.inr ⟨e, by simp [resolve_and_dispatch, hc, hs]⟩

/-- Once the key `(g, uid)` is recorded at instant `t0`, every further event
for the same key delivered before `t0 + retention` is classified as a
duplicate by the deduplicating pipeline and produces no effects. -/
theorem process_seq_all_duplicates (retention cap : Nat) (w : World)
    (client : Bool) (g uid : String) (t0 : Nat)
    (rest : List (Nat × EventData))
    (hrest : ∀ p ∈ rest, validate_event_data p.2 = true ∧
      p.2.guild_id = some g ∧ subjectId p.2 = some uid ∧
      p.1 < t0 + retention) :
    process_seq retention cap w client rest [((g, uid), t0)]
      = rest.map (fun _ => (Except.ok Outcome.duplicate, ([] : List Effect))) := by
  induction rest with
  | nil => simp [process_seq]
  | cons p ps ih =>
    obtain ⟨hv, hg, hsub, ht⟩ := hrest p (List.mem_cons_self p ps)
    rcases p with ⟨t, ev⟩
    rcases ev with ⟨g?, u?⟩
    simp only [EventData.guild_id] at hg
    subst hg
    cases u? with
    | none => simp [subjectId] at hsub
    | some u =>
      rcases u with ⟨i?, n?⟩
      simp only [subjectId, Option.bind] at hsub
      subst hsub
      cases n? with
      | none => simp [validate_event_data] at hv
      | some uname =>
        simp only [process_seq, handle_with_dedup, validate_event_data,
          check_and_record]
        simp [ht, ih (fun q hq => hrest q (List.mem_cons_of_mem _ hq))]

/-- C1. Spec-modelled exactly-once processing: running a sequence of events
that share the (tenant id, subject id) key `(g, uid)` through the pipeline
wired to the spec-modelled `check_and_record` cache (initially empty), with
the key delivered within the retention window and a target channel
configured, the first event proceeds to dispatch — ending `sent` or as a
caught terminal failure — and every subsequent event is classified
`duplicate` with an empty effect trace: no dispatch, no record. -/
theorem dedup_pipeline_exactly_once (retention cap : Nat) (w : World)
    (client : Bool) (g uid cid : String) (t0 : Nat) (e0 : EventData)
    (rest : List (Nat × EventData))
    (hcap : 1 ≤ cap)
    (hcfg : w.getWelcomeChannel g = Except.ok (some cid))
    (hv0 : validate_event_data e0 = true) (hg0 : e0.guild_id = some g)
    (hs0 : subjectId e0 = some uid)
    (hrest : ∀ p ∈ rest, validate_event_data p.2 = true ∧
      p.2.guild_id = some g ∧ subjectId p.2 = some uid ∧
      p.1 < t0 + retention) :
    ∃ r0 : Except PyExn Outcome × List Effect,
      process_seq retention cap w client ((t0, e0) :: rest) []
        = r0 :: rest.map (fun _ => (Except.ok Outcome.duplicate, ([] : List Effect)))
      ∧ (r0.1 = Except.ok Outcome.sent ∨
         ∃ m, r0.1 = Except.ok (Outcome.failed m)) := by
  rcases e0 with ⟨g?, u?⟩
  simp only [EventData.guild_id] at hg0
  subst hg0
  cases u? with
  | none => simp [subjectId] at hs0
  | some u =>
    rcases u with ⟨i?, n?⟩
    simp only [subjectId, Option.bind] at hs0
    subst hs0
    cases n? with
    | none => simp [validate_event_data] at hv0
    | some uname =>
      rcases hrd : resolve_and_dispatch w client g
          { id := some uid, username := some uname } with ⟨r, tr⟩
      have hstep : handle_with_dedup retention cap w client t0
          { guild_id := some g
            user := some { id := some uid, username := some uname } } []
          = (handleExceptBoundary (r, Effect.dedupRecord g uid :: tr),
             [((g, uid), t0)]) := by
        simp [handle_with_dedup, validate_event_data, check_and_record, hrd,
          List.take_of_length_le, hcap]
      refine ⟨handleExceptBoundary (r, Effect.dedupRecord g uid :: tr), ?_, ?_⟩
      · simp only [process_seq, hstep]
        rw [process_seq_all_duplicates retention cap w client g uid t0 rest hrest]
      · have hshape := resolve_and_dispatch_ok_or_error w client g cid
          { id := some uid, username := some uname } hcfg
        rw [hrd] at hshape
        rcases hshape with h | ⟨e, h⟩
        · simp only at h
          subst h
          exact Or.inl (by simp [handleExceptBoundary])
        · simp only at h
          subst h
          exact Or.inr ⟨e.msg, by simp [handleExceptBoundary]⟩

/-- Witness for C1: two deliveries of `evOk` at instants 0 and 1 inside a
60-instant window, in the all-success world `wOk`. -/
theorem dedup_pipeline_exactly_once_witness :
    ∃ r0 : Except PyExn Outcome × List Effect,
      process_seq 60 100 wOk true [(0, evOk), (1, evOk)] []
        = r0 :: [(1, evOk)].map
            (fun _ => (Except.ok Outcome.duplicate, ([] : List Effect)))
      ∧ (r0.1 = Except.ok Outcome.sent ∨
         ∃ m, r0.1 = Except.ok (Outcome.failed m)) :=
  dedup_pipeline_exactly_once 60 100 wOk true "G1" "U1" "555" 0 evOk
    [(1, evOk)] (by decide) rfl rfl rfl rfl
    (by intro p hp; simp at hp; subst hp; exact ⟨rfl, rfl, rfl, by decide⟩)

/-- C7. For a valid, non-duplicate event whose tenant has no welcome channel
configured, the pipeline stops with outcome `noTarget` and a trace holding
only the configuration lookup: zero channel fetches, zero sends, zero dedup
records. Because the handler threads no state between calls, an immediate
redelivery is the very same computation, again `noTarget` and never
`duplicate`. -/
theorem no_target_retry_safe (w : World) (client : Bool) (ev : EventData)
    (g : String)
    (hv : validate_event_data ev = true) (hg : ev.guild_id = some g)
    (hc : w.getWelcomeChannel g = Except.ok none) :
    handle_guild_member_add w client ev
      = (Except.ok Outcome.noTarget, [Effect.configLookup g]) ∧
    (handle_guild_member_add w client ev).1 ≠ Except.ok Outcome.duplicate := by
  rcases ev with ⟨g?, u?⟩
  simp only [EventData.guild_id] at hg
  subst hg
  cases u? with
  | none => simp [validate_event_data] at hv
  | some u =>
    rcases u with ⟨i?, n?⟩
    cases i? with
    | none => simp [validate_event_data] at hv
    | some uid =>
      cases n? with
      | none => simp [validate_event_data] at hv
      | some uname =>
        constructor
        · simp [handle_guild_member_add, handleTryBody, validate_event_data,
            is_duplicate_event, resolve_and_dispatch, hc, handleExceptBoundary]
        · simp [handle_guild_member_add, handleTryBody, validate_event_data,
            is_duplicate_event, resolve_and_dispatch, hc, handleExceptBoundary]

/-- Witness for C7: event `evOk` in the world `wNoTarget`. -/
theorem no_target_retry_safe_witness :
    handle_guild_member_add wNoTarget true evOk
      = (Except.ok Outcome.noTarget, [Effect.configLookup "G1"]) ∧
    (handle_guild_member_add wNoTarget true evOk).1 ≠ Except.ok Outcome.duplicate :=
  no_target_retry_safe wNoTarget true evOk "G1" rfl rfl rfl

/-- C8. Spec-modelled rate-limit budget: for a bucket with remaining budget
`N` whose reset instant has not yet arrived, `N` successive dispatch
consultations proceed with no wait, and the `(N+1)`-th is told to wait until
the bucket's reset instant before attempting. -/
theorem rate_limit_budget_waits_at_exhaustion (N resetAt ceiling now : Nat)
    (h : now < resetAt) :
    (acquireSeq now
        { remaining := N, resetAt := resetAt, ceiling := ceiling } (N + 1)).1
      = List.replicate N none ++ [some resetAt] := by
  induction N with
  | zero =>
    simp [acquireSeq, acquire, Nat.not_le.mpr h]
  | succ k ih =>
    simp only [acquireSeq, acquire]
    rw [if_neg (Nat.not_le.mpr h)]
    simp only [Nat.succ_sub_one, Nat.succ_pos, if_pos]
    simp [List.replicate_succ]
    simpa using ih

/-- Witness for C8: budget 2, reset instant 10, consulted three times at
instant 0. -/
theorem rate_limit_budget_waits_at_exhaustion_witness :
    (acquireSeq 0 { remaining := 2, resetAt := 10, ceiling := 5 } 3).1
      = List.replicate 2 none ++ [some 10] :=
  rate_limit_budget_waits_at_exhaustion 2 10 5 0 (by decide)
